import Mathlib

/-!
Verification of the PXT-WSLCD1in8 display driver core.

Shallow embedding of the repository's TypeScript sources:
  * src/test.ts        (namespace SRAM: serial-RAM frame-buffer driver)
  * src/unnamed/part_000 (namespace LCD: ST7735 protocol layer and the
                          SRAM-to-LCD transfer pipeline)
  * src/graphics.ts    (namespace Graphics: dirty-region tracker)

Pin writes and SPI byte transfers are modelled as an emitted event trace;
module-level mutable state (cached SRAM mode, cached LCD window, display-on
flag, SRAM contents) is modelled as an explicit state record threaded
through each operation.
-/

namespace WSLCD

/-- Screen width in pixels.  Declared in a repository file missing from
src; fixed to 160 by the spec and by src/test.ts which hard-codes 160. -/
def LCD_WIDTH : Int := 160

/-- Screen height in pixels.  Declared in a repository file missing from
src; fixed to 128 by the spec and by src/test.ts which hard-codes 128. -/
def LCD_HEIGHT : Int := 128

/-- Hardware column offset of the panel.  Missing from src; fixed to 1 by
the spec and by the `X start + offset` bytes in src/test.ts. -/
def LCD_X_OFFSET : Int := 1

/-- Hardware row offset of the panel.  Missing from src; fixed to 2 by
the spec and by the `Y start + offset` bytes in src/test.ts. -/
def LCD_Y_OFFSET : Int := 2

namespace SRAMMode

/-- Byte-transfer operating mode of the 23LC1024 (0x00 in src/test.ts). -/
def BYTE : Nat := 0x00

/-- Stream (sequential) operating mode of the 23LC1024 (0x40 in src/test.ts). -/
def STREAM : Nat := 0x40

end SRAMMode

namespace SRAMCommands

/-- Write-status-register opcode (0x01 in src/test.ts). -/
def WRSR : Nat := 0x01

/-- Memory write opcode (0x02 in src/test.ts). -/
def WRITE : Nat := 0x02

/-- Memory read opcode (0x03 in src/test.ts). -/
def READ : Nat := 0x03

end SRAMCommands

namespace ST7735

def CASET : Nat := 0x2A
def RASET : Nat := 0x2B
def RAMWR : Nat := 0x2C
def DISPON : Nat := 0x29

end ST7735

/-- One observable bus action: a digital write to one of the control pins
(chip selects, data/command line) or one byte clocked over SPI. -/
inductive Ev where
  | sramCS (v : Nat)
  | lcdCS (v : Nat)
  | lcdDC (v : Nat)
  | spi (b : Nat)
  deriving DecidableEq, Repr

/-- The module-level mutable state of the SRAM and LCD namespaces:
cached SRAM operating mode, cached LCD address window, display-on flag,
and the contents of the external SRAM (byte address to byte value). -/
structure St where
  currentMode : Nat
  windowX1 : Int
  windowY1 : Int
  windowX2 : Int
  windowY2 : Int
  displayOn : Bool
  mem : Nat → Nat

/-- State at program start: `let currentMode = SRAMMode.BYTE`,
`let windowX1 = -1` (and so on for the other window fields),
`let displayOn = false`.  The physical SRAM powers up with arbitrary
contents; zero is used as its representative here. -/
def initSt : St :=
  { currentMode := SRAMMode.BYTE
    windowX1 := -1, windowY1 := -1, windowX2 := -1, windowY2 := -1
    displayOn := false
    mem := fun _ => 0 }

/-- Truncation of an integer-valued coordinate expression to the byte
actually clocked out by `pins.spiWrite`. -/
def byteOf (i : Int) : Nat := (i % 256).toNat

namespace LCD

/-- LCD.writeCommand: DC low, CS low, one SPI byte, CS high. -/
def writeCommand (cmd : Nat) : List Ev :=
  [Ev.lcdDC 0, Ev.lcdCS 0, Ev.spi cmd, Ev.lcdCS 1]

/-- LCD.writeData: DC high, CS low, one SPI byte, CS high. -/
def writeData (d : Nat) : List Ev :=
  [Ev.lcdDC 1, Ev.lcdCS 0, Ev.spi d, Ev.lcdCS 1]

/-- LCD.writeDataBulk: DC high, CS low, all bytes, CS high. -/
def writeDataBulk (ds : List Nat) : List Ev :=
  [Ev.lcdDC 1, Ev.lcdCS 0] ++ ds.map Ev.spi ++ [Ev.lcdCS 1]

end LCD

namespace SRAM

/-- The WRSR bus transaction emitted by SRAM.setMode when the mode cache
misses. -/
def modeWriteEvs (mode : Nat) : List Ev :=
  [Ev.sramCS 0, Ev.spi SRAMCommands.WRSR, Ev.spi mode, Ev.sramCS 1]

/-- SRAM.setMode: issues a WRSR transaction and updates the cache only
when the requested mode differs from the cached one. -/
def setMode (mode : Nat) (s : St) : St × List Ev :=
  if s.currentMode = mode then (s, [])
  else ({ s with currentMode := mode }, modeWriteEvs mode)

/-- Sequential write of a byte list into SRAM starting at an address,
the chip auto-incrementing its address pointer after each byte (stream
mode semantics per the spec glossary). -/
def writeStream : (Nat → Nat) → Nat → List Nat → (Nat → Nat)
  | mem, _, [] => mem
  | mem, addr, b :: bs =>
      writeStream (fun a => if a = addr then b else mem a) (addr + 1) bs

/-- SRAM.beginStreamWrite: force stream mode, then assert CS and send the
WRITE opcode and the 24-bit address. -/
def beginStreamWrite (addr : Nat) (s : St) : St × List Ev :=
  let r := setMode SRAMMode.STREAM s
  (r.1, r.2 ++ [Ev.sramCS 0, Ev.spi SRAMCommands.WRITE, Ev.spi 0,
                Ev.spi ((addr >>> 8) &&& 0xFF), Ev.spi (addr &&& 0xFF)])

/-- High byte of an RGB565 color, as sent first on the bus. -/
def colorHi (c : Nat) : Nat := (c >>> 8) &&& 0xFF

/-- Low byte of an RGB565 color, as sent second on the bus. -/
def colorLo (c : Nat) : Nat := c &&& 0xFF

/-- The byte sequence produced by a loop of n iterations each writing the
high byte then the low byte of a color. -/
def pairList (hi lo : Nat) : Nat → List Nat
  | 0 => []
  | n + 1 => hi :: lo :: pairList hi lo n

/-- SRAM.fillColor: one stream write at address 0 of 160*128 high/low
byte pairs, closed by deasserting CS (endStream). -/
def fillColor (c : Nat) (s : St) : St × List Ev :=
  let bytes := pairList (colorHi c) (colorLo c) (160 * 128)
  let r := beginStreamWrite 0 s
  ({ r.1 with mem := writeStream r.1.mem 0 bytes },
   r.2 ++ bytes.map Ev.spi ++ [Ev.sramCS 1])

/-- SRAM.writeHLine: one stream write of `length` high/low byte pairs
starting at the pixel address `(y * LCD_WIDTH + x) * 2`. -/
def writeHLine (x y len : Int) (c : Nat) (s : St) : St × List Ev :=
  let addr := ((y * LCD_WIDTH + x) * 2).toNat
  let bytes := pairList (colorHi c) (colorLo c) len.toNat
  let r := beginStreamWrite addr s
  ({ r.1 with mem := writeStream r.1.mem addr bytes },
   r.2 ++ bytes.map Ev.spi ++ [Ev.sramCS 1])

/-- SRAM.getPixelAddr: pure address computation. -/
def getPixelAddr (x y : Int) : Int := (y * LCD_WIDTH + x) * 2

/-- SRAM.init: deassert the SRAM chip select, then setMode(BYTE). -/
def init (s : St) : St × List Ev :=
  let r := setMode SRAMMode.BYTE s
  (r.1, [Ev.sramCS 1] ++ r.2)

/-- Folding SRAM.setMode over a list of requested modes, concatenating the
emitted transactions. -/
def runModes (s : St) : List Nat → St × List Ev
  | [] => (s, [])
  | m :: ms =>
      let r1 := setMode m s
      let r2 := runModes r1.1 ms
      (r2.1, r1.2 ++ r2.2)

/-- The alternating mode list m1, m2, m1, m2, ... of length n. -/
def altList (m1 m2 : Nat) : Nat → List Nat
  | 0 => []
  | n + 1 => m1 :: altList m2 m1 n

end SRAM

namespace LCD

/-- LCD.setWindow: no-op when the requested rectangle equals the cached
window; otherwise issues CASET/RASET (with the panel offsets applied to
the payload bytes) and RAMWR, and updates the cache. -/
def setWindow (x1 y1 x2 y2 : Int) (s : St) : St × List Ev :=
  if x1 = s.windowX1 ∧ y1 = s.windowY1 ∧ x2 = s.windowX2 ∧ y2 = s.windowY2 then
    (s, [])
  else
    ({ s with windowX1 := x1, windowY1 := y1, windowX2 := x2, windowY2 := y2 },
     writeCommand ST7735.CASET
       ++ writeDataBulk [0, byteOf (x1 + LCD_X_OFFSET), 0, byteOf (x2 + LCD_X_OFFSET)]
       ++ writeCommand ST7735.RASET
       ++ writeDataBulk [0, byteOf (y1 + LCD_Y_OFFSET), 0, byteOf (y2 + LCD_Y_OFFSET)]
       ++ writeCommand ST7735.RAMWR)

/-- LCD.displayON: issue DISPON, record the display as on. -/
def displayON (s : St) : St × List Ev :=
  ({ s with displayOn := true }, writeCommand ST7735.DISPON)

/-- The bus events of one SRAM stream-read burst of n bytes at an address:
CS low, READ opcode, 24-bit address, n dummy SPI bytes clocking the data
out, CS high. -/
def streamReadEvs (addr n : Nat) : List Ev :=
  [Ev.sramCS 0, Ev.spi SRAMCommands.READ, Ev.spi 0,
   Ev.spi ((addr >>> 8) &&& 0xFF), Ev.spi (addr &&& 0xFF)]
  ++ List.replicate n (Ev.spi 0) ++ [Ev.sramCS 1]

/-- The n bytes read from SRAM starting at an address. -/
def readBuf (mem : Nat → Nat) (addr n : Nat) : List Nat :=
  (List.range n).map (fun i => mem (addr + i))

/-- One iteration of the transferFromSRAM chunk loop: force stream mode,
burst-read 640 bytes at chunk*640 into the local buffer, then bulk-write
the buffer to the LCD. -/
def transferChunk (s : St) (chunk : Nat) : St × List Ev :=
  let addr := chunk * 640
  let r := SRAM.setMode SRAMMode.STREAM s
  (r.1, r.2 ++ streamReadEvs addr 640 ++ writeDataBulk (readBuf r.1.mem addr 640))

/-- The transferFromSRAM for-loop: `n` remaining iterations starting at
chunk index `c`. -/
def chunkLoop (s : St) (c : Nat) : Nat → St × List Ev
  | 0 => (s, [])
  | n + 1 =>
      let r1 := transferChunk s c
      let r2 := chunkLoop r1.1 (c + 1) n
      (r2.1, r1.2 ++ r2.2)

/-- LCD.transferFromSRAM: window to full screen, 64 read-then-write chunks
of 640 bytes, then display on if it was off. -/
def transferFromSRAM (s : St) : St × List Ev :=
  let r1 := setWindow 0 0 (LCD_WIDTH - 1) (LCD_HEIGHT - 1) s
  let r2 := chunkLoop r1.1 0 64
  let r3 := if r2.1.displayOn then (r2.1, ([] : List Ev)) else displayON r2.1
  (r3.1, r1.2 ++ r2.2 ++ r3.2)

/-- The clamping prologue of LCD.transferRegion, line for line. -/
def clampRegion (x0 y0 w0 h0 : Int) : Int × Int × Int × Int :=
  let x1 := if x0 < 0 then 0 else x0
  let w1 := if x0 < 0 then w0 + x0 else w0
  let y1 := if y0 < 0 then 0 else y0
  let h1 := if y0 < 0 then h0 + y0 else h0
  let w2 := if x1 + w1 > LCD_WIDTH then LCD_WIDTH - x1 else w1
  let h2 := if y1 + h1 > LCD_HEIGHT then LCD_HEIGHT - y1 else h1
  (x1, y1, w2, h2)

/-- One iteration of the transferRegion row loop: force stream mode,
burst-read one row of the region at its pixel address, then bulk-write it
to the LCD. -/
def transferRow (x y : Int) (rowBytes : Nat) (s : St) (row : Nat) : St × List Ev :=
  let addr := (((y + row) * LCD_WIDTH + x) * 2).toNat
  let r := SRAM.setMode SRAMMode.STREAM s
  (r.1, r.2 ++ streamReadEvs addr rowBytes ++ writeDataBulk (readBuf r.1.mem addr rowBytes))

/-- The transferRegion for-loop: `n` remaining rows starting at row index
`row`. -/
def rowLoop (x y : Int) (rowBytes : Nat) (s : St) (row : Nat) : Nat → St × List Ev
  | 0 => (s, [])
  | n + 1 =>
      let r1 := transferRow x y rowBytes s row
      let r2 := rowLoop x y rowBytes r1.1 (row + 1) n
      (r2.1, r1.2 ++ r2.2)

/-- The row-by-row tail of LCD.transferRegion on the already-clamped
rectangle: window to it, transfer h rows of w pixels each, then display
on if it was off. -/
def regionRowPath (x y w h : Int) (s : St) : St × List Ev :=
  let r1 := setWindow x y (x + w - 1) (y + h - 1) s
  let rowBytes := (w * 2).toNat
  let r2 := rowLoop x y rowBytes r1.1 0 h.toNat
  let r3 := if r2.1.displayOn then (r2.1, ([] : List Ev)) else displayON r2.1
  (r3.1, r1.2 ++ r2.2 ++ r3.2)

/-- LCD.transferRegion: clamp to screen bounds; return without action on
an empty clamped region; delegate to transferFromSRAM for wide or large
regions; otherwise window to the clamped rectangle and transfer it row by
row, then display on if it was off. -/
def transferRegion (x0 y0 w0 h0 : Int) (s : St) : St × List Ev :=
  let c := clampRegion x0 y0 w0 h0
  let x := c.1
  let y := c.2.1
  let w := c.2.2.1
  let h := c.2.2.2
  if w ≤ 0 ∨ h ≤ 0 then (s, [])
  else if w ≥ LCD_WIDTH - 20 ∨ w * h > 5000 then transferFromSRAM s
  else regionRowPath x y w h s

end LCD

namespace Graphics

/-- The dirty-region tracker state of the Graphics namespace. -/
structure Gfx where
  dirtyX1 : Int
  dirtyY1 : Int
  dirtyX2 : Int
  dirtyY2 : Int
  isDirty : Bool
  deriving DecidableEq, Repr

/-- Tracker state at program start: box (0,0,LCD_WIDTH-1,LCD_HEIGHT-1)
and `let isDirty = true`. -/
def initGfx : Gfx :=
  { dirtyX1 := 0, dirtyY1 := 0
    dirtyX2 := LCD_WIDTH - 1, dirtyY2 := LCD_HEIGHT - 1
    isDirty := true }

/-- Graphics.markDirty: adopt the rectangle and activate when inactive,
otherwise grow the box by componentwise min/max. -/
def markDirty (x1 y1 x2 y2 : Int) (g : Gfx) : Gfx :=
  if !g.isDirty then
    { dirtyX1 := x1, dirtyY1 := y1, dirtyX2 := x2, dirtyY2 := y2, isDirty := true }
  else
    { dirtyX1 := min g.dirtyX1 x1, dirtyY1 := min g.dirtyY1 y1
      dirtyX2 := max g.dirtyX2 x2, dirtyY2 := max g.dirtyY2 y2, isDirty := true }

/-- Graphics.clampX: Math.clamp(0, LCD_WIDTH - 1, x). -/
def clampX (x : Int) : Int := max 0 (min (LCD_WIDTH - 1) x)

/-- Graphics.clampY: Math.clamp(0, LCD_HEIGHT - 1, y). -/
def clampY (y : Int) : Int := max 0 (min (LCD_HEIGHT - 1) y)

/-- The argument tuple of one LCD.transferRegion invocation. -/
structure Call where
  x : Int
  y : Int
  w : Int
  h : Int
  deriving DecidableEq, Repr

/-- Graphics.display: return with no transfer when the tracker is
inactive; otherwise invoke LCD.transferRegion on the clamped dirty box
and deactivate. -/
def display (g : Gfx) : Gfx × Option Call :=
  if !g.isDirty then (g, none)
  else
    ({ g with isDirty := false },
     some { x := clampX g.dirtyX1
            y := clampY g.dirtyY1
            w := clampX g.dirtyX2 - clampX g.dirtyX1 + 1
            h := clampY g.dirtyY2 - clampY g.dirtyY1 + 1 })

/-- The tracker effect of Graphics.clear: SRAM.fillColor leaves the
tracker alone, then the full screen is marked dirty. -/
def clear (g : Gfx) : Gfx :=
  markDirty 0 0 (LCD_WIDTH - 1) (LCD_HEIGHT - 1) g

/-- The tracker effect of Graphics.init: LCD.init does not touch the
tracker, then clear(Color.WHITE) marks the full screen dirty. -/
def init (g : Gfx) : Gfx := clear g

/-- Graphics.rgb: convert 8-bit RGB components to RGB565. -/
def rgb (r g b : Nat) : Nat :=
  (((r >>> 3) &&& 0x1F) <<< 11) ||| (((g >>> 2) &&& 0x3F) <<< 5) ||| ((b >>> 3) &&& 0x1F)

/-- Graphics.display together with the bus activity of the transfer it
requests: the returned trace is empty when no transfer call is made. -/
def runDisplay (g : Gfx) (s : St) : Gfx × St × List Ev :=
  let r := display g
  match r.2 with
  | none => (r.1, s, [])
  | some c =>
      let t := LCD.transferRegion c.x c.y c.w c.h s
      (r.1, t.1, t.2)

end Graphics

/-- Membership of a point in a closed axis-aligned rectangle given by its
two corners. -/
def inRect (px py x1 y1 x2 y2 : Int) : Prop :=
  x1 ≤ px ∧ px ≤ x2 ∧ y1 ≤ py ∧ py ≤ y2

/-- The device targeted by a chip-select assertion. -/
inductive Dev where
  | sram
  | lcd
  deriving DecidableEq, Repr

/-- Tag an event with the device whose chip select it asserts, if any. -/
def devTag : Ev → Option Dev
  | Ev.sramCS 0 => some Dev.sram
  | Ev.lcdCS 0 => some Dev.lcd
  | _ => none

/-- The sequence of chip-select assertions in a trace, in order. -/
def devAsserts (t : List Ev) : List Dev := t.filterMap devTag

/-- New level of the SRAM chip-select line (true = asserted/low) after an
event. -/
def sUpd (b : Bool) (e : Ev) : Bool :=
  match e with
  | Ev.sramCS v => v == 0
  | _ => b

/-- New level of the LCD chip-select line (true = asserted/low) after an
event. -/
def lUpd (b : Bool) (e : Ev) : Bool :=
  match e with
  | Ev.lcdCS v => v == 0
  | _ => b

/-- Scan of a trace from given chip-select levels, checking that the two
chip selects are never both asserted after any event. -/
def csOK : Bool → Bool → List Ev → Bool
  | _, _, [] => true
  | sb, lb, e :: r =>
      (!(sUpd sb e && lUpd lb e)) && csOK (sUpd sb e) (lUpd lb e) r

/-- SRAM chip-select level after a trace. -/
def sAfter : Bool → List Ev → Bool
  | b, [] => b
  | b, e :: r => sAfter (sUpd b e) r

/-- LCD chip-select level after a trace. -/
def lAfter : Bool → List Ev → Bool
  | b, [] => b
  | b, e :: r => lAfter (lUpd b e) r

/-- A bus segment that starts and ends with both chip selects deasserted
and never has both asserted at once. -/
def Seg (t : List Ev) : Prop :=
  csOK false false t = true ∧ sAfter false t = false ∧ lAfter false t = false

/-- Number of SRAM stream-write openings in a trace: chip-select
assertions immediately followed by the WRITE opcode byte. -/
def streamOpens : List Ev → Nat
  | [] => 0
  | [_] => 0
  | a :: b :: r =>
      (if a = Ev.sramCS 0 ∧ b = Ev.spi SRAMCommands.WRITE then 1 else 0)
        + streamOpens (b :: r)

/-! ## Theorems -/

/-- Claim C1, counterexample: immediately after display initialization
(Graphics.init on the program-start tracker state) the tracker is not
inactive, and Graphics.display with no prior markDirty issues one
region-transfer call (over the whole screen), not zero. -/
theorem C1_counterexample :
    (Graphics.display (Graphics.init Graphics.initGfx)).2 =
      some { x := 0, y := 0, w := 160, h := 128 } ∧
    (Graphics.display (Graphics.init Graphics.initGfx)).2 ≠ none := by
  decide

/-- Claim C1, amended: after display initialization the dirty tracker is
active and covers the full screen, so Graphics.display with no prior
markDirty issues exactly one region-transfer call, over the full screen;
Graphics.display issues zero region-transfer calls exactly when the
tracker is inactive. -/
theorem C1_theorem :
    (Graphics.init Graphics.initGfx).isDirty = true ∧
    Graphics.display (Graphics.init Graphics.initGfx) =
      ({ dirtyX1 := 0, dirtyY1 := 0, dirtyX2 := 159, dirtyY2 := 127, isDirty := false },
       some { x := 0, y := 0, w := 160, h := 128 }) ∧
    (∀ g : Graphics.Gfx, g.isDirty = false → Graphics.display g = (g, none)) := by
  refine ⟨by decide, by decide, ?_⟩
  intro g hg
  simp [Graphics.display, hg]

/-- Claim C1, witness: the inactive-tracker branch of the amended claim at
a concrete state. -/
theorem C1_witness :
    Graphics.display
        { dirtyX1 := 4, dirtyY1 := 5, dirtyX2 := 6, dirtyY2 := 7, isDirty := false } =
      ({ dirtyX1 := 4, dirtyY1 := 5, dirtyX2 := 6, dirtyY2 := 7, isDirty := false }, none) :=
  C1_theorem.2.2 _ (by decide)

/-- Claim C2: marking two well-formed rectangles dirty starting from an
inactive tracker yields exactly the componentwise min/max box, which
contains every point of either rectangle and is contained in every
rectangle containing both. -/
theorem C2_theorem (ax1 ay1 ax2 ay2 bx1 by1 bx2 by2 : Int) (g : Graphics.Gfx)
    (hg : g.isDirty = false)
    (ha1 : ax1 ≤ ax2) (ha2 : ay1 ≤ ay2) (hb1 : bx1 ≤ bx2) (hb2 : by1 ≤ by2) :
    (Graphics.markDirty bx1 by1 bx2 by2 (Graphics.markDirty ax1 ay1 ax2 ay2 g) =
      { dirtyX1 := min ax1 bx1, dirtyY1 := min ay1 by1,
        dirtyX2 := max ax2 bx2, dirtyY2 := max ay2 by2, isDirty := true }) ∧
    (∀ px py : Int,
      inRect px py ax1 ay1 ax2 ay2 ∨ inRect px py bx1 by1 bx2 by2 →
      inRect px py (min ax1 bx1) (min ay1 by1) (max ax2 bx2) (max ay2 by2)) ∧
    (∀ cx1 cy1 cx2 cy2 : Int,
      (∀ px py : Int, inRect px py ax1 ay1 ax2 ay2 → inRect px py cx1 cy1 cx2 cy2) →
      (∀ px py : Int, inRect px py bx1 by1 bx2 by2 → inRect px py cx1 cy1 cx2 cy2) →
      ∀ px py : Int,
        inRect px py (min ax1 bx1) (min ay1 by1) (max ax2 bx2) (max ay2 by2) →
        inRect px py cx1 cy1 cx2 cy2) := by
  refine ⟨?_, ?_, ?_⟩
  · simp [Graphics.markDirty, hg]
  · rintro px py (⟨h1, h2, h3, h4⟩ | ⟨h1, h2, h3, h4⟩) <;>
      exact ⟨by omega, by omega, by omega, by omega⟩
  · intro cx1 cy1 cx2 cy2 hA hB px py hp
    have hA1 := hA ax1 ay1 ⟨le_refl _, ha1, le_refl _, ha2⟩
    have hA2 := hA ax2 ay2 ⟨ha1, le_refl _, ha2, le_refl _⟩
    have hB1 := hB bx1 by1 ⟨le_refl _, hb1, le_refl _, hb2⟩
    have hB2 := hB bx2 by2 ⟨hb1, le_refl _, hb2, le_refl _⟩
    obtain ⟨p1, p2, p3, p4⟩ := hp
    obtain ⟨q1, q2, q3, q4⟩ := hA1
    obtain ⟨q5, q6, q7, q8⟩ := hA2
    obtain ⟨q9, q10, q11, q12⟩ := hB1
    obtain ⟨q13, q14, q15, q16⟩ := hB2
    exact ⟨by omega, by omega, by omega, by omega⟩

/-- Claim C2, witness: the min/max box equation at two concrete
rectangles from a concrete inactive tracker state. -/
theorem C2_witness :
    Graphics.markDirty 3 2 5 4 (Graphics.markDirty 0 0 1 1
        { dirtyX1 := 9, dirtyY1 := 9, dirtyX2 := 9, dirtyY2 := 9, isDirty := false }) =
      { dirtyX1 := min 0 3, dirtyY1 := min 0 2,
        dirtyX2 := max 1 5, dirtyY2 := max 1 4, isDirty := true } :=
  (C2_theorem 0 0 1 1 3 2 5 4 _ (by decide) (by decide) (by decide)
    (by decide) (by decide)).1

/-- Claim C3: Graphics.display is a no-op on an inactive tracker; on an
active tracker it deactivates and requests exactly one region transfer
over the clamped dirty box; it requests at most one transfer, and a
second call with no intervening draw requests no transfer and emits no
bus events. -/
theorem C3_theorem (g : Graphics.Gfx) (s : St) :
    (g.isDirty = false → Graphics.display g = (g, none)) ∧
    (g.isDirty = true →
      Graphics.display g =
        ({ g with isDirty := false },
         some { x := Graphics.clampX g.dirtyX1
                y := Graphics.clampY g.dirtyY1
                w := Graphics.clampX g.dirtyX2 - Graphics.clampX g.dirtyX1 + 1
                h := Graphics.clampY g.dirtyY2 - Graphics.clampY g.dirtyY1 + 1 })) ∧
    (Graphics.display g).2.toList.length ≤ 1 ∧
    (Graphics.display (Graphics.display g).1).2 = none ∧
    (Graphics.runDisplay (Graphics.display g).1 s).2.2 = [] := by
  cases hg : g.isDirty <;>
    simp [Graphics.display, Graphics.runDisplay, hg]

/-- Claim C3, witness: the active branch at a concrete tracker state. -/
theorem C3_witness :
    Graphics.display
        { dirtyX1 := -3, dirtyY1 := 2, dirtyX2 := 200, dirtyY2 := 5, isDirty := true } =
      ({ dirtyX1 := -3, dirtyY1 := 2, dirtyX2 := 200, dirtyY2 := 5, isDirty := false },
       some { x := Graphics.clampX (-3)
              y := Graphics.clampY 2
              w := Graphics.clampX 200 - Graphics.clampX (-3) + 1
              h := Graphics.clampY 5 - Graphics.clampY 2 + 1 }) :=
  (C3_theorem { dirtyX1 := -3, dirtyY1 := 2, dirtyX2 := 200, dirtyY2 := 5, isDirty := true }
    initSt).2.1 rfl

/-- A WRSR transaction asserts the SRAM chip select exactly once. -/
lemma count_modeWriteEvs (m : Nat) :
    (SRAM.modeWriteEvs m).count (Ev.sramCS 0) = 1 := by
  simp [SRAM.modeWriteEvs, List.count_cons]

/-- Alternating distinct modes from a state whose cache differs from the
first requested mode issues exactly one WRSR transaction per call. -/
lemma runModes_alt :
    ∀ (n : Nat) (m1 m2 : Nat) (t : St), m1 ≠ m2 → t.currentMode ≠ m1 →
      (SRAM.runModes t (SRAM.altList m1 m2 n)).2.count (Ev.sramCS 0) = n := by
  intro n
  induction n with
  | zero => intro m1 m2 t _ _; simp [SRAM.altList, SRAM.runModes]
  | succ n ih =>
      intro m1 m2 t h12 ht
      have hstep : SRAM.setMode m1 t =
          ({ t with currentMode := m1 }, SRAM.modeWriteEvs m1) := by
        simp [SRAM.setMode, ht]
      simp only [SRAM.altList, SRAM.runModes, hstep, List.count_append,
        count_modeWriteEvs]
      have : ({ t with currentMode := m1 } : St).currentMode ≠ m2 := by
        simpa using h12
      rw [ih m2 m1 _ (Ne.symm h12) this]
      omega

/-- Claim C7: SRAM.setMode issues a WRSR transaction only on a cache miss
and leaves the cache equal to the requested mode, so two calls with the
same mode (cache initially different) issue exactly one transaction, and
alternating distinct modes issue exactly one transaction per call. -/
theorem C7_theorem (m m1 m2 : Nat) (n : Nat) (s t : St)
    (hm : s.currentMode ≠ m) (h12 : m1 ≠ m2) (ht : t.currentMode ≠ m1) :
    ((SRAM.setMode m s).2 ++ (SRAM.setMode m (SRAM.setMode m s).1).2).count
        (Ev.sramCS 0) = 1 ∧
    (SRAM.setMode m s).1.currentMode = m ∧
    (SRAM.setMode m (SRAM.setMode m s).1).2 = [] ∧
    (SRAM.runModes t (SRAM.altList m1 m2 n)).2.count (Ev.sramCS 0) = n := by
  have hstep : SRAM.setMode m s =
      ({ s with currentMode := m }, SRAM.modeWriteEvs m) := by
    simp [SRAM.setMode, hm]
  have h2 : SRAM.setMode m ({ s with currentMode := m } : St) =
      ({ s with currentMode := m }, []) := by
    simp [SRAM.setMode]
  refine ⟨?_, ?_, ?_, runModes_alt n m1 m2 t h12 ht⟩
  · simp [hstep, h2, count_modeWriteEvs]
  · simp [hstep]
  · simp [hstep, h2]

/-- Claim C7, witness: three alternating calls from the program-start
state issue three WRSR transactions. -/
theorem C7_witness :
    (SRAM.runModes initSt
        (SRAM.altList SRAMMode.STREAM SRAMMode.BYTE 3)).2.count (Ev.sramCS 0) = 3 :=
  (C7_theorem SRAMMode.STREAM SRAMMode.STREAM SRAMMode.BYTE 3 initSt initSt
    (by decide) (by decide) (by decide)).2.2.2

/-- Running setMode over a list of BYTE requests from a BYTE-cached state
emits nothing and leaves the state unchanged. -/
lemma runModes_allByte :
    ∀ (ms : List Nat) (s : St), s.currentMode = SRAMMode.BYTE →
      (∀ x ∈ ms, x = SRAMMode.BYTE) → SRAM.runModes s ms = (s, []) := by
  intro ms
  induction ms with
  | nil => intro s _ _; rfl
  | cons m ms ih =>
      intro s hs hall
      have hm : m = SRAMMode.BYTE := hall m (List.mem_cons_self m ms)
      have hstep : SRAM.setMode m s = (s, []) := by
        simp [SRAM.setMode, hs, hm]
      simp only [SRAM.runModes, hstep]
      rw [ih s hs (fun x hx => hall x (List.mem_cons_of_mem m hx))]
      rfl

/-- Claim C10: SRAM.init issues zero WRSR transactions (its setMode(BYTE)
call is elided because the cache starts at BYTE); any further all-BYTE
setMode calls still issue none, and the first mode-register write on the
bus is exactly the WRSR transaction of the first setMode call requesting
a non-BYTE mode. -/
theorem C10_theorem (ms : List Nat) (m : Nat)
    (hms : ∀ x ∈ ms, x = SRAMMode.BYTE) (hm : m ≠ SRAMMode.BYTE) :
    initSt.currentMode = SRAMMode.BYTE ∧
    (SRAM.init initSt).2 = [Ev.sramCS 1] ∧
    (SRAM.init initSt).2.count (Ev.sramCS 0) = 0 ∧
    (SRAM.runModes (SRAM.init initSt).1 ms).2 = [] ∧
    (SRAM.runModes (SRAM.init initSt).1 (ms ++ [m])).2 = SRAM.modeWriteEvs m := by
  have hinit : SRAM.init initSt = (initSt, [Ev.sramCS 1]) := by
    simp [SRAM.init, SRAM.setMode, initSt]
  have hmode : (SRAM.init initSt).1.currentMode = SRAMMode.BYTE := by
    rw [hinit]
    rfl
  have hrun := runModes_allByte ms (SRAM.init initSt).1 hmode hms
  refine ⟨rfl, by rw [hinit], by rw [hinit]; rfl, by rw [hrun], ?_⟩
  have happ :
      ∀ (l1 l2 : List Nat) (s : St),
        SRAM.runModes s (l1 ++ l2) =
          ((SRAM.runModes (SRAM.runModes s l1).1 l2).1,
           (SRAM.runModes s l1).2 ++ (SRAM.runModes (SRAM.runModes s l1).1 l2).2) := by
    intro l1
    induction l1 with
    | nil => intro l2 s; simp [SRAM.runModes]
    | cons a l1 ih => intro l2 s; simp [SRAM.runModes, ih]
  rw [happ, hrun]
  simp [SRAM.runModes, SRAM.setMode, hmode, Ne.symm hm]

/-- Claim C10, witness: two redundant BYTE requests after init emit
nothing, and a following STREAM request emits exactly its WRSR
transaction. -/
theorem C10_witness :
    (SRAM.runModes (SRAM.init initSt).1
        ([SRAMMode.BYTE, SRAMMode.BYTE] ++ [SRAMMode.STREAM])).2 =
      SRAM.modeWriteEvs SRAMMode.STREAM :=
  (C10_theorem [SRAMMode.BYTE, SRAMMode.BYTE] SRAMMode.STREAM
    (by decide) (by decide)).2.2.2.2

/-- Claim C6, counterexample: from the reachable state in which the cached
window already equals the requested rectangle (here reached by an earlier
setWindow of the same rectangle), two successive setWindow calls with
that rectangle issue zero window-set command sequences, not exactly one:
both calls emit no bus events at all. -/
theorem C6_counterexample :
    (LCD.setWindow 0 0 9 9 (LCD.setWindow 0 0 9 9 initSt).1).2 = [] ∧
    (LCD.setWindow 0 0 9 9
        (LCD.setWindow 0 0 9 9 (LCD.setWindow 0 0 9 9 initSt).1).1).2 = [] := by
  constructor <;> rfl

/-- Claim C6, amended: for every rectangle whose coordinates differ from
the cached window, calling setWindow twice in a row issues the
window-set command sequence (CASET, RASET, RAMWR with payloads) exactly
once across the two calls — on the first call, the second being a no-op —
and the cache equals the rectangle after either call. -/
theorem C6_theorem (x1 y1 x2 y2 : Int) (s : St)
    (h : ¬(x1 = s.windowX1 ∧ y1 = s.windowY1 ∧ x2 = s.windowX2 ∧ y2 = s.windowY2)) :
    (LCD.setWindow x1 y1 x2 y2 s).2 =
      LCD.writeCommand ST7735.CASET
        ++ LCD.writeDataBulk [0, byteOf (x1 + LCD_X_OFFSET), 0, byteOf (x2 + LCD_X_OFFSET)]
        ++ LCD.writeCommand ST7735.RASET
        ++ LCD.writeDataBulk [0, byteOf (y1 + LCD_Y_OFFSET), 0, byteOf (y2 + LCD_Y_OFFSET)]
        ++ LCD.writeCommand ST7735.RAMWR ∧
    (LCD.setWindow x1 y1 x2 y2 (LCD.setWindow x1 y1 x2 y2 s).1).2 = [] ∧
    ((LCD.setWindow x1 y1 x2 y2 s).1.windowX1 = x1 ∧
     (LCD.setWindow x1 y1 x2 y2 s).1.windowY1 = y1 ∧
     (LCD.setWindow x1 y1 x2 y2 s).1.windowX2 = x2 ∧
     (LCD.setWindow x1 y1 x2 y2 s).1.windowY2 = y2) ∧
    (LCD.setWindow x1 y1 x2 y2 (LCD.setWindow x1 y1 x2 y2 s).1).1 =
      (LCD.setWindow x1 y1 x2 y2 s).1 := by
  have h1 : LCD.setWindow x1 y1 x2 y2 s =
      ({ s with windowX1 := x1, windowY1 := y1, windowX2 := x2, windowY2 := y2 },
       LCD.writeCommand ST7735.CASET
         ++ LCD.writeDataBulk [0, byteOf (x1 + LCD_X_OFFSET), 0, byteOf (x2 + LCD_X_OFFSET)]
         ++ LCD.writeCommand ST7735.RASET
         ++ LCD.writeDataBulk [0, byteOf (y1 + LCD_Y_OFFSET), 0, byteOf (y2 + LCD_Y_OFFSET)]
         ++ LCD.writeCommand ST7735.RAMWR) := by
    simp [LCD.setWindow, h]
  have h2 : LCD.setWindow x1 y1 x2 y2 (LCD.setWindow x1 y1 x2 y2 s).1 =
      ((LCD.setWindow x1 y1 x2 y2 s).1, []) := by
    rw [h1]
    simp [LCD.setWindow]
  refine ⟨by rw [h1], by rw [h2], by rw [h1]; exact ⟨rfl, rfl, rfl, rfl⟩, by rw [h2]⟩

/-- Claim C6, witness: the second call is a no-op after a first call from
the program-start state, whose cached window differs. -/
theorem C6_witness :
    (LCD.setWindow 0 0 9 9 (LCD.setWindow 0 0 9 9 initSt).1).2 = ([] : List Ev) :=
  (C6_theorem 0 0 9 9 initSt (by decide)).2.1

/-- SRAM.setMode never touches the SRAM contents. -/
lemma setMode_mem (m : Nat) (s : St) : (SRAM.setMode m s).1.mem = s.mem := by
  unfold SRAM.setMode
  split <;> rfl

/-- A stream write of n high/low pairs starting at an address overwrites
exactly the 2n bytes from that address, alternating the two bytes, and
leaves every other address untouched. -/
lemma writeStream_pairList (hi lo : Nat) :
    ∀ (n : Nat) (mem : Nat → Nat) (addr a : Nat),
      SRAM.writeStream mem addr (SRAM.pairList hi lo n) a =
        if addr ≤ a ∧ a < addr + 2 * n then
          (if (a - addr) % 2 = 0 then hi else lo)
        else mem a := by
  intro n
  induction n with
  | zero =>
      intro mem addr a
      simp only [SRAM.pairList, SRAM.writeStream]
      rw [if_neg (by omega)]
  | succ n ih =>
      intro mem addr a
      simp only [SRAM.pairList, SRAM.writeStream]
      rw [ih]
      split_ifs <;> omega

/-- A pair list of n pairs has 2n bytes. -/
lemma pairList_length (hi lo : Nat) :
    ∀ n, (SRAM.pairList hi lo n).length = 2 * n := by
  intro n
  induction n with
  | zero => rfl
  | succ n ih => simp [SRAM.pairList, ih]; omega

/-- An SPI data byte never begins a stream-write opening. -/
lemma streamOpens_spi (x : Nat) (t : List Ev) :
    streamOpens (Ev.spi x :: t) = streamOpens t := by
  cases t with
  | nil => rfl
  | cons b r => simp [streamOpens]

/-- A chip-select deassertion never begins a stream-write opening. -/
lemma streamOpens_sramCS1 (t : List Ev) :
    streamOpens (Ev.sramCS 1 :: t) = streamOpens t := by
  cases t with
  | nil => rfl
  | cons b r => simp [streamOpens]

/-- Mapped SPI data bytes contribute no stream-write openings. -/
lemma streamOpens_mapSpi (bs : List Nat) (r : List Ev) :
    streamOpens (bs.map Ev.spi ++ r) = streamOpens r := by
  induction bs with
  | nil => rfl
  | cons b bs ih => simpa [streamOpens_spi] using ih

/-- A WRSR mode-write transaction contributes no stream-write opening. -/
lemma streamOpens_modeWrite (m : Nat) (t : List Ev) :
    streamOpens (SRAM.modeWriteEvs m ++ t) = streamOpens t := by
  have h1 : streamOpens (Ev.sramCS 0 :: Ev.spi SRAMCommands.WRSR :: Ev.spi m
      :: Ev.sramCS 1 :: t) =
      streamOpens (Ev.spi SRAMCommands.WRSR :: Ev.spi m :: Ev.sramCS 1 :: t) := by
    simp [streamOpens, SRAMCommands.WRSR, SRAMCommands.WRITE]
  simp only [SRAM.modeWriteEvs, List.cons_append, List.nil_append]
  rw [h1, streamOpens_spi, streamOpens_spi, streamOpens_sramCS1]

/-- A stream-write body (opening, address, data bytes, closing) contains
exactly one stream-write opening. -/
lemma streamOpens_body (bs : List Nat) :
    streamOpens ([Ev.sramCS 0, Ev.spi SRAMCommands.WRITE, Ev.spi 0, Ev.spi 0, Ev.spi 0]
      ++ bs.map Ev.spi ++ [Ev.sramCS 1]) = 1 := by
  have h1 : streamOpens (Ev.sramCS 0 :: Ev.spi SRAMCommands.WRITE :: Ev.spi 0 :: Ev.spi 0
      :: Ev.spi 0 :: (bs.map Ev.spi ++ [Ev.sramCS 1])) =
      1 + streamOpens (Ev.spi SRAMCommands.WRITE :: Ev.spi 0 :: Ev.spi 0
        :: Ev.spi 0 :: (bs.map Ev.spi ++ [Ev.sramCS 1])) := by
    simp [streamOpens]
  simp only [List.cons_append, List.nil_append, List.append_assoc] at h1 ⊢
  rw [h1, streamOpens_spi, streamOpens_spi, streamOpens_spi, streamOpens_spi,
    streamOpens_mapSpi]
  rfl

/-- Claim C8: fillColor performs exactly one stream-write session at
address 0 — beyond an optional WRSR mode switch, the whole trace is one
opening, 160*128 high/low byte pairs (40,960 data bytes), and one
closing — and afterwards every pixel address of the frame buffer holds
the color's high byte then low byte, all other addresses unchanged. -/
theorem C8_theorem (c : Nat) (s : St) :
    (SRAM.fillColor c s).2 =
      (if s.currentMode = SRAMMode.STREAM then [] else SRAM.modeWriteEvs SRAMMode.STREAM)
        ++ ([Ev.sramCS 0, Ev.spi SRAMCommands.WRITE, Ev.spi 0, Ev.spi 0, Ev.spi 0]
        ++ (SRAM.pairList (SRAM.colorHi c) (SRAM.colorLo c) (160 * 128)).map Ev.spi
        ++ [Ev.sramCS 1]) ∧
    streamOpens (SRAM.fillColor c s).2 = 1 ∧
    (SRAM.pairList (SRAM.colorHi c) (SRAM.colorLo c) (160 * 128)).length = 40960 ∧
    (∀ p : Nat, p < 160 * 128 →
      (SRAM.fillColor c s).1.mem (2 * p) = SRAM.colorHi c ∧
      (SRAM.fillColor c s).1.mem (2 * p + 1) = SRAM.colorLo c) ∧
    (∀ a : Nat, 40960 ≤ a → (SRAM.fillColor c s).1.mem a = s.mem a) := by
  have hz1 : ((0 : Nat) >>> 8) &&& 0xFF = 0 := rfl
  have hz2 : ((0 : Nat) &&& 0xFF) = 0 := rfl
  have htrace : (SRAM.fillColor c s).2 =
      (if s.currentMode = SRAMMode.STREAM then [] else SRAM.modeWriteEvs SRAMMode.STREAM)
        ++ ([Ev.sramCS 0, Ev.spi SRAMCommands.WRITE, Ev.spi 0, Ev.spi 0, Ev.spi 0]
        ++ (SRAM.pairList (SRAM.colorHi c) (SRAM.colorLo c) (160 * 128)).map Ev.spi
        ++ [Ev.sramCS 1]) := by
    by_cases hc : s.currentMode = SRAMMode.STREAM <;>
      simp [SRAM.fillColor, SRAM.beginStreamWrite, SRAM.setMode, hc, hz1, hz2]
  have hmem : (SRAM.fillColor c s).1.mem =
      SRAM.writeStream s.mem 0
        (SRAM.pairList (SRAM.colorHi c) (SRAM.colorLo c) (160 * 128)) := by
    by_cases hc : s.currentMode = SRAMMode.STREAM <;>
      simp [SRAM.fillColor, SRAM.beginStreamWrite, SRAM.setMode, hc]
  refine ⟨htrace, ?_, ?_, ?_, ?_⟩
  · rw [htrace]
    by_cases hc : s.currentMode = SRAMMode.STREAM
    · rw [if_pos hc, List.nil_append]
      exact streamOpens_body _
    · rw [if_neg hc, streamOpens_modeWrite]
      exact streamOpens_body _
  · rw [pairList_length]
  · intro p hp
    rw [hmem, writeStream_pairList, writeStream_pairList]
    rw [if_pos (by omega), if_pos (by omega), if_pos (by omega),
      if_neg (by omega)]
    exact ⟨rfl, rfl⟩
  · intro a ha
    rw [hmem, writeStream_pairList, if_neg (by omega)]

/-- Claim C8, witness: concluding conjuncts at a concrete color and the
program-start state. -/
theorem C8_witness :
    (SRAM.fillColor (Graphics.rgb 255 0 0) initSt).1.mem (2 * 0) =
      SRAM.colorHi (Graphics.rgb 255 0 0) :=
  ((C8_theorem (Graphics.rgb 255 0 0) initSt).2.2.2.1 0 (by decide)).1

/-- Claim C9: writeHLine at x=10, y=5, length=20 with the RGB565 green
0x07E0 writes 0x07 then 0xE0 at the pixel addresses of row 5, columns
10..29, and leaves every frame-buffer address outside [1620, 1660)
unchanged, whatever the prior contents. -/
theorem C9_theorem (s : St) :
    (∀ x' : Nat, 10 ≤ x' → x' < 30 →
      (SRAM.writeHLine 10 5 20 (Graphics.rgb 0 255 0) s).1.mem ((5 * 160 + x') * 2) = 0x07 ∧
      (SRAM.writeHLine 10 5 20 (Graphics.rgb 0 255 0) s).1.mem ((5 * 160 + x') * 2 + 1) = 0xE0) ∧
    (∀ a : Nat, a < 1620 ∨ 1660 ≤ a →
      (SRAM.writeHLine 10 5 20 (Graphics.rgb 0 255 0) s).1.mem a = s.mem a) := by
  have hmem : (SRAM.writeHLine 10 5 20 (Graphics.rgb 0 255 0) s).1.mem =
      SRAM.writeStream s.mem 1620 (SRAM.pairList 0x07 0xE0 20) := by
    by_cases hc : s.currentMode = SRAMMode.STREAM <;>
      simp [SRAM.writeHLine, SRAM.beginStreamWrite, SRAM.setMode, hc, LCD_WIDTH,
        SRAM.colorHi, SRAM.colorLo, Graphics.rgb] <;> rfl
  constructor
  · intro x' h1 h2
    rw [hmem, writeStream_pairList, writeStream_pairList]
    rw [if_pos (by omega), if_pos (by omega), if_pos (by omega), if_neg (by omega)]
    exact ⟨rfl, rfl⟩
  · intro a ha
    rw [hmem, writeStream_pairList, if_neg (by omega)]

/-- Claim C9, witness: the first written address at a concrete prior
state. -/
theorem C9_witness :
    (SRAM.writeHLine 10 5 20 (Graphics.rgb 0 255 0) initSt).1.mem ((5 * 160 + 10) * 2) =
      0x07 :=
  ((C9_theorem initSt).1 10 (by decide) (by decide)).1

/-- The chip-select scan splits over concatenation. -/
lemma csOK_append : ∀ (t1 t2 : List Ev) (sb lb : Bool),
    csOK sb lb (t1 ++ t2) =
      (csOK sb lb t1 && csOK (sAfter sb t1) (lAfter lb t1) t2) := by
  intro t1
  induction t1 with
  | nil => intro t2 sb lb; simp [csOK, sAfter, lAfter]
  | cons e r ih =>
      intro t2 sb lb
      simp [csOK, sAfter, lAfter, ih, Bool.and_assoc]

/-- The SRAM chip-select level after a concatenation. -/
lemma sAfter_append : ∀ (t1 t2 : List Ev) (b : Bool),
    sAfter b (t1 ++ t2) = sAfter (sAfter b t1) t2 := by
  intro t1
  induction t1 with
  | nil => intro t2 b; rfl
  | cons e r ih => intro t2 b; simp [sAfter, ih]

/-- The LCD chip-select level after a concatenation. -/
lemma lAfter_append : ∀ (t1 t2 : List Ev) (b : Bool),
    lAfter b (t1 ++ t2) = lAfter (lAfter b t1) t2 := by
  intro t1
  induction t1 with
  | nil => intro t2 b; rfl
  | cons e r ih => intro t2 b; simp [lAfter, ih]

/-- The empty trace is an idle-to-idle mutual-exclusion segment. -/
lemma Seg_nil : Seg ([] : List Ev) := ⟨rfl, rfl, rfl⟩

/-- Concatenating idle-to-idle mutual-exclusion segments yields one. -/
lemma Seg_append {t1 t2 : List Ev} (h1 : Seg t1) (h2 : Seg t2) : Seg (t1 ++ t2) := by
  obtain ⟨a1, b1, c1⟩ := h1
  obtain ⟨a2, b2, c2⟩ := h2
  refine ⟨?_, ?_, ?_⟩
  · rw [csOK_append, a1, b1, c1, a2]; rfl
  · rw [sAfter_append, b1, b2]
  · rw [lAfter_append, c1, c2]

/-- SPI data bytes do not move the chip-select lines, so a run of them is
transparent to the scan as long as the lines are not both asserted. -/
lemma csOK_mapSpi : ∀ (bs : List Nat) (sb lb : Bool) (r : List Ev),
    (sb && lb) = false →
    csOK sb lb (bs.map Ev.spi ++ r) = csOK sb lb r := by
  intro bs
  induction bs with
  | nil => intro sb lb r _; rfl
  | cons b bs ih =>
      intro sb lb r h
      simp [csOK, sUpd, lUpd, h, ih _ _ _ h]

/-- SPI data bytes leave the SRAM chip-select level unchanged. -/
lemma sAfter_mapSpi : ∀ (bs : List Nat) (b : Bool) (r : List Ev),
    sAfter b (bs.map Ev.spi ++ r) = sAfter b r := by
  intro bs
  induction bs with
  | nil => intro b r; rfl
  | cons x bs ih => intro b r; simp [sAfter, sUpd, ih]

/-- SPI data bytes leave the LCD chip-select level unchanged. -/
lemma lAfter_mapSpi : ∀ (bs : List Nat) (b : Bool) (r : List Ev),
    lAfter b (bs.map Ev.spi ++ r) = lAfter b r := by
  intro bs
  induction bs with
  | nil => intro b r; rfl
  | cons x bs ih => intro b r; simp [lAfter, lUpd, ih]

/-- A replicated SPI dummy byte is transparent to the scan. -/
lemma csOK_replicateSpi : ∀ (n x : Nat) (sb lb : Bool) (r : List Ev),
    (sb && lb) = false →
    csOK sb lb (List.replicate n (Ev.spi x) ++ r) = csOK sb lb r := by
  intro n
  induction n with
  | zero => intro x sb lb r _; rfl
  | succ n ih =>
      intro x sb lb r h
      simp [List.replicate_succ, csOK, sUpd, lUpd, h, ih _ _ _ _ h]

/-- Replicated SPI bytes leave the SRAM chip-select level unchanged. -/
lemma sAfter_replicateSpi : ∀ (n x : Nat) (b : Bool) (r : List Ev),
    sAfter b (List.replicate n (Ev.spi x) ++ r) = sAfter b r := by
  intro n
  induction n with
  | zero => intro x b r; rfl
  | succ n ih => intro x b r; simp [List.replicate_succ, sAfter, sUpd, ih]

/-- Replicated SPI bytes leave the LCD chip-select level unchanged. -/
lemma lAfter_replicateSpi : ∀ (n x : Nat) (b : Bool) (r : List Ev),
    lAfter b (List.replicate n (Ev.spi x) ++ r) = lAfter b r := by
  intro n
  induction n with
  | zero => intro x b r; rfl
  | succ n ih => intro x b r; simp [List.replicate_succ, lAfter, lUpd, ih]

/-- A single LCD command frame is a mutual-exclusion segment. -/
lemma Seg_writeCommand (c : Nat) : Seg (LCD.writeCommand c) := ⟨rfl, rfl, rfl⟩

/-- A bulk LCD data frame is a mutual-exclusion segment. -/
lemma Seg_writeDataBulk (ds : List Nat) : Seg (LCD.writeDataBulk ds) := by
  refine ⟨?_, ?_, ?_⟩
  · show csOK false true (ds.map Ev.spi ++ [Ev.lcdCS 1]) = true
    rw [csOK_mapSpi ds false true [Ev.lcdCS 1] rfl]; rfl
  · show sAfter false (ds.map Ev.spi ++ [Ev.lcdCS 1]) = false
    rw [sAfter_mapSpi]; rfl
  · show lAfter true (ds.map Ev.spi ++ [Ev.lcdCS 1]) = false
    rw [lAfter_mapSpi]; rfl

/-- An SRAM stream-read burst is a mutual-exclusion segment. -/
lemma Seg_streamReadEvs (addr n : Nat) : Seg (LCD.streamReadEvs addr n) := by
  refine ⟨?_, ?_, ?_⟩
  · show csOK true false (List.replicate n (Ev.spi 0) ++ [Ev.sramCS 1]) = true
    rw [csOK_replicateSpi n 0 true false [Ev.sramCS 1] rfl]; rfl
  · show sAfter true (List.replicate n (Ev.spi 0) ++ [Ev.sramCS 1]) = false
    rw [sAfter_replicateSpi]; rfl
  · show lAfter false (List.replicate n (Ev.spi 0) ++ [Ev.sramCS 1]) = false
    rw [lAfter_replicateSpi]; rfl

/-- A WRSR mode-write transaction is a mutual-exclusion segment. -/
lemma Seg_modeWriteEvs (m : Nat) : Seg (SRAM.modeWriteEvs m) := ⟨rfl, rfl, rfl⟩

/-- The trace of SRAM.setMode is a mutual-exclusion segment. -/
lemma Seg_setMode (m : Nat) (s : St) : Seg (SRAM.setMode m s).2 := by
  unfold SRAM.setMode
  split
  · exact Seg_nil
  · exact Seg_modeWriteEvs m

/-- The trace of LCD.setWindow is a mutual-exclusion segment. -/
lemma Seg_setWindow (x1 y1 x2 y2 : Int) (s : St) :
    Seg (LCD.setWindow x1 y1 x2 y2 s).2 := by
  unfold LCD.setWindow
  split
  · exact Seg_nil
  · exact Seg_append (Seg_append (Seg_append (Seg_append
      (Seg_writeCommand _) (Seg_writeDataBulk _)) (Seg_writeCommand _))
      (Seg_writeDataBulk _)) (Seg_writeCommand _)

/-- The trace of LCD.displayON is a mutual-exclusion segment. -/
lemma Seg_displayON (s : St) : Seg (LCD.displayON s).2 := Seg_writeCommand _

/-- devAsserts splits over concatenation. -/
lemma devAsserts_append (t1 t2 : List Ev) :
    devAsserts (t1 ++ t2) = devAsserts t1 ++ devAsserts t2 :=
  List.filterMap_append t1 t2 devTag

/-- An SPI data byte at the head of a trace asserts no chip select. -/
lemma devAsserts_spiCons (b : Nat) (t : List Ev) :
    devAsserts (Ev.spi b :: t) = devAsserts t := rfl

/-- The empty trace asserts no chip select. -/
lemma devAsserts_nil : devAsserts ([] : List Ev) = [] := rfl

/-- SPI data bytes assert no chip select. -/
lemma devAsserts_mapSpi (bs : List Nat) : devAsserts (bs.map Ev.spi) = [] := by
  induction bs with
  | nil => rfl
  | cons b bs ih => rw [List.map_cons, devAsserts_spiCons]; exact ih

/-- Replicated SPI bytes assert no chip select. -/
lemma devAsserts_replicateSpi (n x : Nat) :
    devAsserts (List.replicate n (Ev.spi x)) = [] := by
  induction n with
  | zero => rfl
  | succ n ih => rw [List.replicate_succ, devAsserts_spiCons]; exact ih

/-- An LCD command frame asserts the LCD chip select once. -/
lemma devAsserts_writeCommand (c : Nat) :
    devAsserts (LCD.writeCommand c) = [Dev.lcd] := rfl

/-- A bulk LCD data frame asserts the LCD chip select once. -/
lemma devAsserts_writeDataBulk (ds : List Nat) :
    devAsserts (LCD.writeDataBulk ds) = [Dev.lcd] := by
  show devAsserts ([Ev.lcdDC 1, Ev.lcdCS 0] ++ (ds.map Ev.spi ++ [Ev.lcdCS 1])) = [Dev.lcd]
  rw [devAsserts_append, devAsserts_append, devAsserts_mapSpi]
  rfl

/-- An SRAM stream-read burst asserts the SRAM chip select once. -/
lemma devAsserts_streamReadEvs (addr n : Nat) :
    devAsserts (LCD.streamReadEvs addr n) = [Dev.sram] := by
  show devAsserts ([Ev.sramCS 0, Ev.spi SRAMCommands.READ, Ev.spi 0,
      Ev.spi ((addr >>> 8) &&& 0xFF), Ev.spi (addr &&& 0xFF)]
    ++ (List.replicate n (Ev.spi 0) ++ [Ev.sramCS 1])) = [Dev.sram]
  rw [devAsserts_append, devAsserts_append, devAsserts_replicateSpi]
  rfl

/-- A WRSR transaction asserts the SRAM chip select once. -/
lemma devAsserts_modeWriteEvs (m : Nat) :
    devAsserts (SRAM.modeWriteEvs m) = [Dev.sram] := rfl

/-- SRAM.setMode asserts the SRAM chip select exactly on a cache miss. -/
lemma devAsserts_setMode (m : Nat) (s : St) :
    devAsserts (SRAM.setMode m s).2 =
      (if s.currentMode = m then [] else [Dev.sram]) := by
  unfold SRAM.setMode
  split
  · rfl
  · rfl

/-- LCD.setWindow asserts the LCD chip select five times (three command
frames, two payload frames) exactly on a window-cache miss. -/
lemma devAsserts_setWindow (x1 y1 x2 y2 : Int) (s : St) :
    devAsserts (LCD.setWindow x1 y1 x2 y2 s).2 =
      (if x1 = s.windowX1 ∧ y1 = s.windowY1 ∧ x2 = s.windowX2 ∧ y2 = s.windowY2
        then [] else List.replicate 5 Dev.lcd) := by
  unfold LCD.setWindow
  split
  · rfl
  · rw [devAsserts_append, devAsserts_append, devAsserts_append, devAsserts_append,
      devAsserts_writeCommand, devAsserts_writeCommand, devAsserts_writeCommand,
      devAsserts_writeDataBulk, devAsserts_writeDataBulk]
    rfl

/-- SRAM.setMode only rewrites the mode cache. -/
lemma setMode_result (m : Nat) (s : St) :
    (SRAM.setMode m s).1 = { s with currentMode := m } := by
  unfold SRAM.setMode
  split
  · next h => cases s; simp_all
  · rfl

/-- LCD.setWindow preserves the mode cache, the display flag and the
SRAM contents. -/
lemma setWindow_pres (x1 y1 x2 y2 : Int) (s : St) :
    (LCD.setWindow x1 y1 x2 y2 s).1.currentMode = s.currentMode ∧
    (LCD.setWindow x1 y1 x2 y2 s).1.displayOn = s.displayOn ∧
    (LCD.setWindow x1 y1 x2 y2 s).1.mem = s.mem := by
  unfold LCD.setWindow
  split <;> exact ⟨rfl, rfl, rfl⟩

/-- After LCD.setWindow the cached window equals the requested rectangle
(in the cached branch because it already did). -/
lemma setWindow_sets (x1 y1 x2 y2 : Int) (s : St) :
    (LCD.setWindow x1 y1 x2 y2 s).1.windowX1 = x1 ∧
    (LCD.setWindow x1 y1 x2 y2 s).1.windowY1 = y1 ∧
    (LCD.setWindow x1 y1 x2 y2 s).1.windowX2 = x2 ∧
    (LCD.setWindow x1 y1 x2 y2 s).1.windowY2 = y2 := by
  unfold LCD.setWindow
  split
  · next h => exact ⟨h.1.symm, h.2.1.symm, h.2.2.1.symm, h.2.2.2.symm⟩
  · exact ⟨rfl, rfl, rfl, rfl⟩

/-- One chunk of the full transfer: it forces stream mode, and its trace
asserts the SRAM select (twice on a mode-cache miss) then the LCD select,
forming a mutual-exclusion segment. -/
lemma transferChunk_spec (s : St) (c : Nat) :
    (LCD.transferChunk s c).1 = { s with currentMode := SRAMMode.STREAM } ∧
    devAsserts (LCD.transferChunk s c).2 =
      (if s.currentMode = SRAMMode.STREAM then [] else [Dev.sram])
        ++ [Dev.sram, Dev.lcd] ∧
    Seg (LCD.transferChunk s c).2 := by
  refine ⟨setMode_result _ _, ?_, ?_⟩
  · show devAsserts ((SRAM.setMode SRAMMode.STREAM s).2
        ++ LCD.streamReadEvs (c * 640) 640
        ++ LCD.writeDataBulk (LCD.readBuf (SRAM.setMode SRAMMode.STREAM s).1.mem (c * 640) 640)) = _
    rw [devAsserts_append, devAsserts_append, devAsserts_setMode,
      devAsserts_streamReadEvs, devAsserts_writeDataBulk]
    simp [List.append_assoc]
  · exact Seg_append (Seg_append (Seg_setMode _ _) (Seg_streamReadEvs _ _))
      (Seg_writeDataBulk _)

/-- The chunk loop of the full transfer: it leaves the state unchanged
except for forcing stream mode, and its trace asserts the SRAM select
once extra on an initial mode-cache miss and then strictly alternates
SRAM, LCD per chunk, forming a mutual-exclusion segment. -/
lemma chunkLoop_spec : ∀ (n c : Nat) (s : St),
    ((LCD.chunkLoop s c n).1 =
      if n = 0 then s else { s with currentMode := SRAMMode.STREAM }) ∧
    devAsserts (LCD.chunkLoop s c n).2 =
      (if n = 0 then []
       else if s.currentMode = SRAMMode.STREAM then [] else [Dev.sram])
        ++ (List.replicate n [Dev.sram, Dev.lcd]).flatten ∧
    Seg (LCD.chunkLoop s c n).2 := by
  intro n
  induction n with
  | zero =>
      intro c s
      exact ⟨rfl, rfl, Seg_nil⟩
  | succ n ih =>
      intro c s
      obtain ⟨hcs, hca, hcg⟩ := transferChunk_spec s c
      obtain ⟨hls, hla, hlg⟩ := ih (c + 1) (LCD.transferChunk s c).1
      have hmode : (LCD.transferChunk s c).1.currentMode = SRAMMode.STREAM := by
        rw [hcs]
      have hstate : (LCD.chunkLoop s c (n + 1)).1 =
          (LCD.chunkLoop (LCD.transferChunk s c).1 (c + 1) n).1 := rfl
      have htrace : (LCD.chunkLoop s c (n + 1)).2 =
          (LCD.transferChunk s c).2
            ++ (LCD.chunkLoop (LCD.transferChunk s c).1 (c + 1) n).2 := rfl
      refine ⟨?_, ?_, ?_⟩
      · rw [hstate, hls, hcs]
        rcases n with _ | n <;> simp
      · rw [htrace, devAsserts_append, hca, hla, hmode]
        simp [List.replicate_succ, List.append_assoc]
      · rw [htrace]
        exact Seg_append hcg hlg

/-- LCD.transferFromSRAM: its chip-select assertion sequence is the
window commands (on a cache miss), one extra SRAM assert on a mode-cache
miss, then 64 strict SRAM-then-LCD alternations — one per chunk — and a
final LCD assert if the display was off; and the whole trace is a
mutual-exclusion segment. -/
lemma transferFromSRAM_spec (s : St) :
    devAsserts (LCD.transferFromSRAM s).2 =
      (if (0 : Int) = s.windowX1 ∧ (0 : Int) = s.windowY1 ∧
          LCD_WIDTH - 1 = s.windowX2 ∧ LCD_HEIGHT - 1 = s.windowY2
        then [] else List.replicate 5 Dev.lcd)
      ++ (if s.currentMode = SRAMMode.STREAM then [] else [Dev.sram])
      ++ (List.replicate 64 [Dev.sram, Dev.lcd]).flatten
      ++ (if s.displayOn then [] else [Dev.lcd]) ∧
    Seg (LCD.transferFromSRAM s).2 := by
  obtain ⟨hm, hd, _⟩ := setWindow_pres 0 0 (LCD_WIDTH - 1) (LCD_HEIGHT - 1) s
  obtain ⟨hls, hla, hlg⟩ :=
    chunkLoop_spec 64 0 (LCD.setWindow 0 0 (LCD_WIDTH - 1) (LCD_HEIGHT - 1) s).1
  have hdisp : (LCD.chunkLoop
      (LCD.setWindow 0 0 (LCD_WIDTH - 1) (LCD_HEIGHT - 1) s).1 0 64).1.displayOn =
      s.displayOn := by
    rw [hls]
    simpa using hd
  have htrace : (LCD.transferFromSRAM s).2 =
      (LCD.setWindow 0 0 (LCD_WIDTH - 1) (LCD_HEIGHT - 1) s).2
        ++ (LCD.chunkLoop (LCD.setWindow 0 0 (LCD_WIDTH - 1) (LCD_HEIGHT - 1) s).1 0 64).2
        ++ (if (LCD.chunkLoop
              (LCD.setWindow 0 0 (LCD_WIDTH - 1) (LCD_HEIGHT - 1) s).1 0 64).1.displayOn
            then ((LCD.chunkLoop
              (LCD.setWindow 0 0 (LCD_WIDTH - 1) (LCD_HEIGHT - 1) s).1 0 64).1,
              ([] : List Ev))
            else LCD.displayON (LCD.chunkLoop
              (LCD.setWindow 0 0 (LCD_WIDTH - 1) (LCD_HEIGHT - 1) s).1 0 64).1).2 := rfl
  constructor
  · rw [htrace, devAsserts_append, devAsserts_append, devAsserts_setWindow, hla, hm,
      hdisp]
    cases hb : s.displayOn <;>
      simp [devAsserts_nil, LCD.displayON, devAsserts_writeCommand, List.append_assoc]
  · rw [htrace]
    refine Seg_append (Seg_append (Seg_setWindow _ _ _ _ _) hlg) ?_
    split
    · exact Seg_nil
    · exact Seg_displayON _

/-- One row of the region transfer: it forces stream mode, and its trace
asserts the SRAM select (twice on a mode-cache miss) then the LCD select,
forming a mutual-exclusion segment. -/
lemma transferRow_spec (x y : Int) (rowBytes : Nat) (s : St) (row : Nat) :
    (LCD.transferRow x y rowBytes s row).1 = { s with currentMode := SRAMMode.STREAM } ∧
    devAsserts (LCD.transferRow x y rowBytes s row).2 =
      (if s.currentMode = SRAMMode.STREAM then [] else [Dev.sram])
        ++ [Dev.sram, Dev.lcd] ∧
    Seg (LCD.transferRow x y rowBytes s row).2 := by
  refine ⟨setMode_result _ _, ?_, ?_⟩
  · show devAsserts ((SRAM.setMode SRAMMode.STREAM s).2
        ++ LCD.streamReadEvs ((((y + row) * LCD_WIDTH + x) * 2).toNat) rowBytes
        ++ LCD.writeDataBulk (LCD.readBuf (SRAM.setMode SRAMMode.STREAM s).1.mem
            ((((y + row) * LCD_WIDTH + x) * 2).toNat) rowBytes)) = _
    rw [devAsserts_append, devAsserts_append, devAsserts_setMode,
      devAsserts_streamReadEvs, devAsserts_writeDataBulk]
    simp [List.append_assoc]
  · exact Seg_append (Seg_append (Seg_setMode _ _) (Seg_streamReadEvs _ _))
      (Seg_writeDataBulk _)

/-- The row loop of the region transfer: state and chip-select assertion
structure as for the chunk loop, one SRAM-then-LCD alternation per row. -/
lemma rowLoop_spec (x y : Int) (rowBytes : Nat) : ∀ (n row : Nat) (s : St),
    ((LCD.rowLoop x y rowBytes s row n).1 =
      if n = 0 then s else { s with currentMode := SRAMMode.STREAM }) ∧
    devAsserts (LCD.rowLoop x y rowBytes s row n).2 =
      (if n = 0 then []
       else if s.currentMode = SRAMMode.STREAM then [] else [Dev.sram])
        ++ (List.replicate n [Dev.sram, Dev.lcd]).flatten ∧
    Seg (LCD.rowLoop x y rowBytes s row n).2 := by
  intro n
  induction n with
  | zero =>
      intro row s
      exact ⟨rfl, rfl, Seg_nil⟩
  | succ n ih =>
      intro row s
      obtain ⟨hcs, hca, hcg⟩ := transferRow_spec x y rowBytes s row
      obtain ⟨hls, hla, hlg⟩ := ih (row + 1) (LCD.transferRow x y rowBytes s row).1
      have hmode : (LCD.transferRow x y rowBytes s row).1.currentMode =
          SRAMMode.STREAM := by
        rw [hcs]
      have hstate : (LCD.rowLoop x y rowBytes s row (n + 1)).1 =
          (LCD.rowLoop x y rowBytes (LCD.transferRow x y rowBytes s row).1
            (row + 1) n).1 := rfl
      have htrace : (LCD.rowLoop x y rowBytes s row (n + 1)).2 =
          (LCD.transferRow x y rowBytes s row).2
            ++ (LCD.rowLoop x y rowBytes (LCD.transferRow x y rowBytes s row).1
              (row + 1) n).2 := rfl
      refine ⟨?_, ?_, ?_⟩
      · rw [hstate, hls, hcs]
        rcases n with _ | n <;> simp
      · rw [htrace, devAsserts_append, hca, hla, hmode]
        simp [List.replicate_succ, List.append_assoc]
      · rw [htrace]
        exact Seg_append hcg hlg

/-- The ensure-display-on epilogue preserves the cached window and emits
one LCD assert exactly when the display was off. -/
lemma dispIf_spec (t : St) :
    ((if t.displayOn then (t, ([] : List Ev)) else LCD.displayON t).1.windowX1 = t.windowX1 ∧
     (if t.displayOn then (t, ([] : List Ev)) else LCD.displayON t).1.windowY1 = t.windowY1 ∧
     (if t.displayOn then (t, ([] : List Ev)) else LCD.displayON t).1.windowX2 = t.windowX2 ∧
     (if t.displayOn then (t, ([] : List Ev)) else LCD.displayON t).1.windowY2 = t.windowY2) ∧
    devAsserts (if t.displayOn then (t, ([] : List Ev)) else LCD.displayON t).2 =
      (if t.displayOn then [] else [Dev.lcd]) ∧
    Seg (if t.displayOn then (t, ([] : List Ev)) else LCD.displayON t).2 := by
  split
  · exact ⟨⟨rfl, rfl, rfl, rfl⟩, rfl, Seg_nil⟩
  · exact ⟨⟨rfl, rfl, rfl, rfl⟩, rfl, Seg_displayON _⟩

/-- The row path of the region transfer: afterwards the cached window is
exactly the requested rectangle, and the chip-select assertion sequence
is the window commands (on a cache miss), one extra SRAM assert on a
mode-cache miss, then one strict SRAM-then-LCD alternation per row, and a
final LCD assert if the display was off. -/
lemma regionRowPath_spec (x y w h : Int) (s : St) (hh : 0 < h) :
    ((LCD.regionRowPath x y w h s).1.windowX1 = x ∧
     (LCD.regionRowPath x y w h s).1.windowY1 = y ∧
     (LCD.regionRowPath x y w h s).1.windowX2 = x + w - 1 ∧
     (LCD.regionRowPath x y w h s).1.windowY2 = y + h - 1) ∧
    devAsserts (LCD.regionRowPath x y w h s).2 =
      (if x = s.windowX1 ∧ y = s.windowY1 ∧
          x + w - 1 = s.windowX2 ∧ y + h - 1 = s.windowY2
        then [] else List.replicate 5 Dev.lcd)
      ++ (if s.currentMode = SRAMMode.STREAM then [] else [Dev.sram])
      ++ (List.replicate h.toNat [Dev.sram, Dev.lcd]).flatten
      ++ (if s.displayOn then [] else [Dev.lcd]) := by
  have hn0 : h.toNat ≠ 0 := by omega
  obtain ⟨hm, hd, _⟩ := setWindow_pres x y (x + w - 1) (y + h - 1) s
  obtain ⟨hw1, hw2, hw3, hw4⟩ := setWindow_sets x y (x + w - 1) (y + h - 1) s
  obtain ⟨hls, hla, _⟩ := rowLoop_spec x y ((w * 2).toNat) h.toNat 0
    (LCD.setWindow x y (x + w - 1) (y + h - 1) s).1
  have h2 : (LCD.rowLoop x y ((w * 2).toNat)
      (LCD.setWindow x y (x + w - 1) (y + h - 1) s).1 0 h.toNat).1 =
      { (LCD.setWindow x y (x + w - 1) (y + h - 1) s).1 with
        currentMode := SRAMMode.STREAM } := by
    rw [hls, if_neg hn0]
  obtain ⟨hdw, hdda, hdsg⟩ := dispIf_spec (LCD.rowLoop x y ((w * 2).toNat)
    (LCD.setWindow x y (x + w - 1) (y + h - 1) s).1 0 h.toNat).1
  have hstate : (LCD.regionRowPath x y w h s).1 =
      (if (LCD.rowLoop x y ((w * 2).toNat)
          (LCD.setWindow x y (x + w - 1) (y + h - 1) s).1 0 h.toNat).1.displayOn
        then ((LCD.rowLoop x y ((w * 2).toNat)
          (LCD.setWindow x y (x + w - 1) (y + h - 1) s).1 0 h.toNat).1, ([] : List Ev))
        else LCD.displayON (LCD.rowLoop x y ((w * 2).toNat)
          (LCD.setWindow x y (x + w - 1) (y + h - 1) s).1 0 h.toNat).1).1 := rfl
  have htrace : (LCD.regionRowPath x y w h s).2 =
      (LCD.setWindow x y (x + w - 1) (y + h - 1) s).2
        ++ (LCD.rowLoop x y ((w * 2).toNat)
            (LCD.setWindow x y (x + w - 1) (y + h - 1) s).1 0 h.toNat).2
        ++ (if (LCD.rowLoop x y ((w * 2).toNat)
            (LCD.setWindow x y (x + w - 1) (y + h - 1) s).1 0 h.toNat).1.displayOn
          then ((LCD.rowLoop x y ((w * 2).toNat)
            (LCD.setWindow x y (x + w - 1) (y + h - 1) s).1 0 h.toNat).1, ([] : List Ev))
          else LCD.displayON (LCD.rowLoop x y ((w * 2).toNat)
            (LCD.setWindow x y (x + w - 1) (y + h - 1) s).1 0 h.toNat).1).2 := rfl
  constructor
  · refine ⟨?_, ?_, ?_, ?_⟩
    · rw [hstate, hdw.1, h2]; exact hw1
    · rw [hstate, hdw.2.1, h2]; exact hw2
    · rw [hstate, hdw.2.2.1, h2]; exact hw3
    · rw [hstate, hdw.2.2.2, h2]; exact hw4
  · rw [htrace, devAsserts_append, devAsserts_append, devAsserts_setWindow, hla, hm,
      hdda, h2]
    have hdisp : ({ (LCD.setWindow x y (x + w - 1) (y + h - 1) s).1 with
        currentMode := SRAMMode.STREAM } : St).displayOn = s.displayOn := by
      simpa using hd
    rw [hdisp, if_neg hn0]
    simp [List.append_assoc]

/-- The mutual-exclusion property of the row path. -/
lemma Seg_regionRowPath (x y w h : Int) (s : St) :
    Seg (LCD.regionRowPath x y w h s).2 := by
  refine Seg_append (Seg_append (Seg_setWindow _ _ _ _ _)
    (rowLoop_spec _ _ _ _ _ _).2.2) ?_
  split
  · exact Seg_nil
  · exact Seg_displayON _

/-- LCD.transferRegion unfolded over an explicit clamping result. -/
lemma transferRegion_eq (x0 y0 w0 h0 x y w h : Int) (s : St)
    (hc : LCD.clampRegion x0 y0 w0 h0 = (x, y, w, h)) :
    LCD.transferRegion x0 y0 w0 h0 s =
      if w ≤ 0 ∨ h ≤ 0 then (s, [])
      else if w ≥ LCD_WIDTH - 20 ∨ w * h > 5000 then LCD.transferFromSRAM s
      else LCD.regionRowPath x y w h s := by
  unfold LCD.transferRegion
  rw [hc]

/-- The whole region-transfer trace is a mutual-exclusion segment,
whatever branch is taken. -/
lemma Seg_transferRegion (x0 y0 w0 h0 : Int) (s : St) :
    Seg (LCD.transferRegion x0 y0 w0 h0 s).2 := by
  rw [transferRegion_eq x0 y0 w0 h0 (LCD.clampRegion x0 y0 w0 h0).1
    (LCD.clampRegion x0 y0 w0 h0).2.1 (LCD.clampRegion x0 y0 w0 h0).2.2.1
    (LCD.clampRegion x0 y0 w0 h0).2.2.2 s rfl]
  split
  · exact Seg_nil
  · split
    · exact (transferFromSRAM_spec s).2
    · exact Seg_regionRowPath _ _ _ _ _

/-- Claim C4: transferRegion clamps its rectangle to the 160 by 128
screen; an empty clamped region produces no state change and no bus
action; a clamped width of at least 140 or a clamped area above 5000
delegates to the full-screen transfer; otherwise it windows exactly the
clamped rectangle and transfers it row by row (one SRAM-read/LCD-write
alternation per row). -/
theorem C4_theorem (x0 y0 w0 h0 x y w h : Int) (s : St)
    (hc : LCD.clampRegion x0 y0 w0 h0 = (x, y, w, h)) :
    ((w ≤ 0 ∨ h ≤ 0) → LCD.transferRegion x0 y0 w0 h0 s = (s, [])) ∧
    (0 < w → 0 < h → (w ≥ LCD_WIDTH - 20 ∨ w * h > 5000) →
      LCD.transferRegion x0 y0 w0 h0 s = LCD.transferFromSRAM s) ∧
    (0 < w → 0 < h → w < LCD_WIDTH - 20 → w * h ≤ 5000 →
      ((LCD.transferRegion x0 y0 w0 h0 s).1.windowX1 = x ∧
       (LCD.transferRegion x0 y0 w0 h0 s).1.windowY1 = y ∧
       (LCD.transferRegion x0 y0 w0 h0 s).1.windowX2 = x + w - 1 ∧
       (LCD.transferRegion x0 y0 w0 h0 s).1.windowY2 = y + h - 1) ∧
      devAsserts (LCD.transferRegion x0 y0 w0 h0 s).2 =
        (if x = s.windowX1 ∧ y = s.windowY1 ∧
            x + w - 1 = s.windowX2 ∧ y + h - 1 = s.windowY2
          then [] else List.replicate 5 Dev.lcd)
        ++ (if s.currentMode = SRAMMode.STREAM then [] else [Dev.sram])
        ++ (List.replicate h.toNat [Dev.sram, Dev.lcd]).flatten
        ++ (if s.displayOn then [] else [Dev.lcd])) := by
  rw [transferRegion_eq x0 y0 w0 h0 x y w h s hc]
  refine ⟨?_, ?_, ?_⟩
  · intro hempty
    rw [if_pos hempty]
  · intro hw hh hbig
    rw [if_neg (by omega), if_pos hbig]
  · intro hw hh hnarrow hsmall
    have hbig : ¬(w ≥ LCD_WIDTH - 20 ∨ w * h > 5000) := fun hcon =>
      hcon.elim (fun h1 => absurd h1 (not_le.mpr hnarrow))
        (fun h2 => absurd h2 (not_lt.mpr hsmall))
    rw [if_neg (by omega), if_neg hbig]
    exact regionRowPath_spec x y w h s hh

/-- Claim C4, witness: a 10 by 10 region at (30,30) from the program
start state clamps to itself, does not delegate, and ends with the window
cached at exactly that rectangle. -/
theorem C4_witness :
    (LCD.transferRegion 30 30 10 10 initSt).1.windowX1 = 30 ∧
    (LCD.transferRegion 30 30 10 10 initSt).1.windowY1 = 30 ∧
    (LCD.transferRegion 30 30 10 10 initSt).1.windowX2 = 30 + 10 - 1 ∧
    (LCD.transferRegion 30 30 10 10 initSt).1.windowY2 = 30 + 10 - 1 :=
  ((C4_theorem 30 30 10 10 30 30 10 10 initSt (by decide)).2.2 (by decide) (by decide)
    (by decide) (by decide)).1

/-- Claim C5: in the full transfer and in the row path of the region
transfer, the two chip selects are never both asserted (csOK scans the
trace from both-idle and checks after every event), and the chip-select
assertions strictly alternate SRAM then LCD once per chunk (resp. per
row): each memory read is closed before the chunk's display write opens,
which is closed before the next read opens. -/
theorem C5_theorem (s : St) (x0 y0 w0 h0 x y w h : Int)
    (hc : LCD.clampRegion x0 y0 w0 h0 = (x, y, w, h)) :
    csOK false false (LCD.transferFromSRAM s).2 = true ∧
    devAsserts (LCD.transferFromSRAM s).2 =
      (if (0 : Int) = s.windowX1 ∧ (0 : Int) = s.windowY1 ∧
          LCD_WIDTH - 1 = s.windowX2 ∧ LCD_HEIGHT - 1 = s.windowY2
        then [] else List.replicate 5 Dev.lcd)
      ++ (if s.currentMode = SRAMMode.STREAM then [] else [Dev.sram])
      ++ (List.replicate 64 [Dev.sram, Dev.lcd]).flatten
      ++ (if s.displayOn then [] else [Dev.lcd]) ∧
    csOK false false (LCD.transferRegion x0 y0 w0 h0 s).2 = true ∧
    (0 < w → 0 < h → w < LCD_WIDTH - 20 → w * h ≤ 5000 →
      devAsserts (LCD.transferRegion x0 y0 w0 h0 s).2 =
        (if x = s.windowX1 ∧ y = s.windowY1 ∧
            x + w - 1 = s.windowX2 ∧ y + h - 1 = s.windowY2
          then [] else List.replicate 5 Dev.lcd)
        ++ (if s.currentMode = SRAMMode.STREAM then [] else [Dev.sram])
        ++ (List.replicate h.toNat [Dev.sram, Dev.lcd]).flatten
        ++ (if s.displayOn then [] else [Dev.lcd])) := by
  refine ⟨(transferFromSRAM_spec s).2.1, (transferFromSRAM_spec s).1,
    (Seg_transferRegion x0 y0 w0 h0 s).1, ?_⟩
  intro hw hh hnarrow hsmall
  have hbig : ¬(w ≥ LCD_WIDTH - 20 ∨ w * h > 5000) := fun hcon =>
    hcon.elim (fun h1 => absurd h1 (not_le.mpr hnarrow))
      (fun h2 => absurd h2 (not_lt.mpr hsmall))
  rw [transferRegion_eq x0 y0 w0 h0 x y w h s hc, if_neg (by omega), if_neg hbig]
  exact (regionRowPath_spec x y w h s hh).2

/-- Claim C5, witness: the mutual-exclusion scan of the full transfer
from the program-start state. -/
theorem C5_witness :
    csOK false false (LCD.transferFromSRAM initSt).2 = true :=
  (C5_theorem initSt 30 30 10 10 30 30 10 10 (by decide)).1

end WSLCD
